import Mathlib

/-!
Verification of the voice-driven Bible companion front-end.

Each definition below is a shallow embedding of a function of the
repository (file and line references are given in the doc comments).
Browser I/O (fetch, localStorage, the speech-recognition facility, the
audio element) is modelled by passing the environment's answer as an
explicit argument; JavaScript strings are modelled as `String`,
JS numbers as `Rat`, and fallible paths as `Except`/`Option`.
-/

/-- Decides whether `needle` is a prefix of `haystack`
(character-by-character comparison, the model of `String.prototype.startsWith`
used only as a building block of the substring test below). -/
def startsWithChars : List Char → List Char → Bool
  | _, [] => true
  | [], _ :: _ => false
  | c :: cs, d :: ds => c == d && startsWithChars cs ds

/-- Decides whether `needle` occurs contiguously inside `haystack`:
the model of `String.prototype.includes`. -/
def hasSubChars : List Char → List Char → Bool
  | [], needle => needle.isEmpty
  | c :: cs, needle => startsWithChars (c :: cs) needle || hasSubChars cs needle

/-- Model of JavaScript `haystack.includes(needle)`. -/
def strContains (haystack needle : String) : Bool :=
  hasSubChars haystack.data needle.data

/-- Model of JavaScript `String.prototype.toLowerCase` (per-character lowering,
which agrees with JS on the ASCII texts this program compares). -/
def jsToLower (s : String) : String :=
  ⟨s.data.map Char.toLower⟩

/-- Model of JavaScript `String.prototype.trim` on character lists:
whitespace is removed from the front and then from the back. -/
def trimList (p : Char → Bool) (l : List Char) : List Char :=
  (l.dropWhile p).rdropWhile p

/-- Model of JavaScript `String.prototype.trim`. -/
def jsTrim (s : String) : String :=
  ⟨trimList Char.isWhitespace s.data⟩

namespace GeminiService

/-- One entry of `candidates[i].content.parts` (src/src/services/geminiService.ts:7). -/
structure GeminiPart where
  text : String

/-- The `content` member of a candidate (geminiService.ts:6). -/
structure GeminiContent where
  parts : List GeminiPart

/-- One element of `GeminiResponse.candidates` (geminiService.ts:5). -/
structure GeminiCandidate where
  content : GeminiContent

/-- The parsed JSON body of a successful generation response (geminiService.ts:4). -/
structure GeminiData where
  candidates : List GeminiCandidate

/-- What the network did for the single `fetch` of `generateGeminiResponse`
(geminiService.ts:51): the request itself failed, the response was non-OK,
or an OK response with a parsed body was received. -/
inductive GeminiOutcome
  | fetchFailure (msg : String)
  | httpFailure (status : Nat) (statusText : String) (body : String)
  | ok (data : GeminiData)

/-- Fallback reply used when the user text mentions a verse (geminiService.ts:115). -/
def verseFallback : String :=
  "I\x27m having trouble connecting right now, but here\x27s a beautiful verse: \x27For I know the plans I have for you, declares the Lord, plans to prosper you and not to harm you, to give you hope and a future.\x27 - Jeremiah 29:11"

/-- Fallback reply used when the user text mentions prayer (geminiService.ts:119). -/
def prayerFallback : String :=
  "Even when I can\x27t connect fully, remember that God hears your prayers. \x27Do not be anxious about anything, but in every situation, by prayer and petition, with thanksgiving, present your requests to God.\x27 - Philippians 4:6"

/-- Fallback reply used when the user text asks for help (geminiService.ts:123). -/
def guidanceFallback : String :=
  "I\x27m experiencing some connection issues, but God\x27s guidance is always available. \x27Trust in the Lord with all your heart and lean not on your own understanding.\x27 - Proverbs 3:5"

/-- Generic fallback reply (geminiService.ts:126). -/
def genericFallback : String :=
  "I\x27m having trouble connecting to provide you with biblical guidance right now. Please try again in a moment. Remember, God is always with you."

/-- The catch-block of `generateGeminiResponse` (geminiService.ts:108-127):
keyword selection over the lowercased user message, checked in source order. -/
def geminiFallback (userMessage : String) : String :=
  let lowerMessage := jsToLower userMessage
  if strContains lowerMessage "verse" || strContains lowerMessage "scripture" then
    verseFallback
  else if strContains lowerMessage "pray" || strContains lowerMessage "prayer" then
    prayerFallback
  else if strContains lowerMessage "help" || strContains lowerMessage "guidance" then
    guidanceFallback
  else
    genericFallback

/-- The extraction `data.candidates[0].content.parts[0].text` together with the
guards of geminiService.ts:96-104: `none` stands for any of the thrown errors
(`candidates` absent/empty, `parts` empty — a TypeError in JS — or empty text),
all of which land in the same catch block. -/
def geminiExtract (data : GeminiData) : Option String :=
  match data.candidates with
  | [] => none
  | c :: _ =>
    match c.content.parts with
    | [] => none
    | p :: _ => if p.text = "" then none else some p.text

/-- Embedding of `generateGeminiResponse` (geminiService.ts:26-128), with the
network's behaviour passed in as `outcome`. Every thrown error is caught by
the function's own catch block, so the result is always a plain string. -/
def generateGeminiResponse (userMessage : String) (outcome : GeminiOutcome) : String :=
  match outcome with
  | .fetchFailure _ => geminiFallback userMessage
  | .httpFailure _ _ _ => geminiFallback userMessage
  | .ok data =>
    match geminiExtract data with
    | some t => jsTrim t
    | none => geminiFallback userMessage

/-- Whether the remote generation call failed in the sense of the catch block:
network failure, non-OK response, or a body from which no text could be
extracted. -/
def geminiCallFails : GeminiOutcome → Bool
  | .fetchFailure _ => true
  | .httpFailure _ _ _ => true
  | .ok data => (geminiExtract data).isNone

end GeminiService

namespace ElevenLabs

/-- JSON value as produced by `JSON.parse`, with numbers as rationals. -/
inductive JsonVal
  | jnull
  | jbool (b : Bool)
  | jnum (q : Rat)
  | jstr (s : String)
  | jobj (fields : List (String × JsonVal))
  | jarr (elems : List JsonVal)

/-- Member access `v.field` on a parsed JSON value: `none` models JavaScript
`undefined` (missing member, or access on a non-object). -/
def lookupField : JsonVal → String → Option JsonVal
  | .jobj fields, key => (fields.find? (fun f => f.1 == key)).map (fun f => f.2)
  | _, _ => none

/-- JavaScript truthiness of a JSON value (`null`, `false`, `0` and `""` are
falsy; objects and arrays are truthy). -/
def jsTruthy : JsonVal → Bool
  | .jnull => false
  | .jbool b => b
  | .jnum q => decide (q ≠ 0)
  | .jstr s => decide (s ≠ "")
  | .jobj _ => true
  | .jarr _ => true

/-- State of `localStorage.getItem(\x27elevenlabs-config\x27)` followed by
`JSON.parse`: the key is absent (`getItem` returned null), present but
unparseable (`JSON.parse` threw), or parsed to a JSON value. -/
inductive StoredConfig
  | absent
  | malformed
  | parsed (v : JsonVal)

/-- The built-in API key (src/unnamed/part_000:1). -/
def ELEVENLABS_API_KEY : String := "sk_8ddbd27c76d5badb5381028b8d44c9c8c6cca4b9acf85f66"

/-- The built-in voice id (part_000:5). -/
def DEFAULT_VOICE_ID : String := "21m00Tcm4TlvDq8ikWAM"

/-- The built-in voice settings (part_000:14-19), as the JSON value the reader
would hand back. -/
def defaultVoiceSettingsJson : JsonVal :=
  .jobj [("stability", .jnum (1/2)), ("similarity_boost", .jnum (3/4)),
         ("style", .jnum (1/2)), ("use_speaker_boost", .jbool true)]

/-- Embedding of `getApiKey` (part_000:22-33): `parsed.apiKey || ELEVENLABS_API_KEY`,
with every failure of the try block (absent key, malformed JSON, member access
throwing) caught and mapped to the built-in default. -/
def getApiKey (store : StoredConfig) : JsonVal :=
  match store with
  | .parsed v =>
    match lookupField v "apiKey" with
    | some fv => if jsTruthy fv then fv else .jstr ELEVENLABS_API_KEY
    | none => .jstr ELEVENLABS_API_KEY
  | .absent => .jstr ELEVENLABS_API_KEY
  | .malformed => .jstr ELEVENLABS_API_KEY

/-- Embedding of `getVoiceSettings` (part_000:36-47). -/
def getVoiceSettings (store : StoredConfig) : JsonVal :=
  match store with
  | .parsed v =>
    match lookupField v "voiceSettings" with
    | some fv => if jsTruthy fv then fv else defaultVoiceSettingsJson
    | none => defaultVoiceSettingsJson
  | .absent => defaultVoiceSettingsJson
  | .malformed => defaultVoiceSettingsJson

/-- Embedding of `getVoiceId` (part_000:50-61). -/
def getVoiceId (store : StoredConfig) : JsonVal :=
  match store with
  | .parsed v =>
    match lookupField v "voiceId" with
    | some fv => if jsTruthy fv then fv else .jstr DEFAULT_VOICE_ID
    | none => .jstr DEFAULT_VOICE_ID
  | .absent => .jstr DEFAULT_VOICE_ID
  | .malformed => .jstr DEFAULT_VOICE_ID

/-- A settled HTTP response as the fetch API presents it. Body bytes model the
`arrayBuffer()` payload, `bodyText` the `text()` payload. -/
structure HttpResponse where
  ok : Bool
  status : Nat
  statusText : String
  bodyText : String
  bodyBytes : List Nat
deriving DecidableEq

/-- What a single `fetch` call did: rejected (network failure) or resolved
with a response. -/
inductive FetchOutcome
  | networkFailure (msg : String)
  | response (r : HttpResponse)
deriving DecidableEq

/-- The error message built at part_000:107 for a non-OK synthesis response. -/
def elevenLabsErrorMsg (status : Nat) (statusText bodyText : String) : String :=
  "ElevenLabs API error: " ++ toString status ++ " " ++ statusText ++ " - " ++ bodyText

/-- Embedding of `synthesizeSpeech` (part_000:80-115): on an OK response the
`arrayBuffer` bytes are returned; on a non-OK response an error carrying the
status, status text and body text is thrown; the catch block logs and
re-throws, so a rejected fetch propagates its own error. -/
def synthesizeSpeech (outcome : FetchOutcome) : Except String (List Nat) :=
  match outcome with
  | .networkFailure msg => .error msg
  | .response r =>
    if r.ok then .ok r.bodyBytes
    else .error (elevenLabsErrorMsg r.status r.statusText r.bodyText)

/-- Embedding of `testApiConnection` (part_000:63-78): `response.ok`, with any
thrown error caught and mapped to `false`. -/
def testApiConnection (outcome : FetchOutcome) : Bool :=
  match outcome with
  | .networkFailure _ => false
  | .response r => r.ok

/-- What the environment does with the audio element created by
`playAudioBuffer` (part_000:118-210): it ends normally (`onended`), the
element errors (`onerror`), the `play()` promise rejects with a named error,
or nothing ever happens and the element is still paused when the 30-second
timeout fires. -/
inductive PlayEvent
  | endedNormally
  | elementError
  | playRejected (name : String)
  | neverStarts
deriving DecidableEq

/-- How the promise returned by `playAudioBuffer` settles. -/
inductive PlaybackResult
  | resolved
  | rejectedMsg (msg : String)
deriving DecidableEq

/-- The timeout constant of part_000:203. -/
def playbackTimeoutMs : Nat := 30000

/-- Embedding of the settlement logic of `playAudioBuffer` (part_000:118-210). -/
def playAudioBuffer (ev : PlayEvent) : PlaybackResult :=
  match ev with
  | .endedNormally => .resolved
  | .elementError => .rejectedMsg "Audio playback failed"
  | .playRejected name =>
    if name = "NotAllowedError" then
      .rejectedMsg "Audio playback requires user interaction on this device"
    else if name = "NotSupportedError" then
      .rejectedMsg "Audio format not supported on this device"
    else
      .rejectedMsg name
  | .neverStarts => .rejectedMsg "Audio playback timeout"

/-- The synchronous start of `playAudioBuffer` (part_000:118-203) acting on the
set of in-flight playbacks: a fresh `Audio` element is created and `play()` is
called on it. The function body holds no reference to any previously created
element and never pauses or stops one, so the new playback is added and
nothing is removed. -/
def playAudioBufferInvoke (inflight : List String) (elem : String) : List String :=
  elem :: inflight

end ElevenLabs

namespace SpeechRec

/-- The state owned by `useSpeechRecognition`
(src/src/hooks/useSpeechRecognition.ts:14-20): the exposed `transcript`,
`isListening` and `confidence` plus the internal `finalTranscriptRef`. -/
structure RecState where
  transcript : String
  isListening : Bool
  confidence : Rat
  finalRef : String
deriving DecidableEq

/-- One entry of a `SpeechRecognitionResultList`: its best alternative's text,
whether the result is final, and its confidence (`none` models `undefined`). -/
structure RecResult where
  text : String
  isFinal : Bool
  conf : Option Rat
deriving DecidableEq

/-- The expression `result[0].confidence || 0.8` (useSpeechRecognition.ts:130):
an absent or zero confidence falls back to 0.8. -/
def effConf : Option Rat → Rat
  | none => 4/5
  | some q => if q = 0 then 4/5 else q

/-- Accumulation of `finalTranscript` over the result loop
(useSpeechRecognition.ts:127-142). -/
def finalsConcat (rs : List RecResult) : String :=
  rs.foldl (fun acc r => if r.isFinal then acc ++ r.text else acc) ""

/-- Accumulation of `interimTranscript`; interim results are only used off iOS
(useSpeechRecognition.ts:138-141). -/
def interimConcat (ios : Bool) (rs : List RecResult) : String :=
  rs.foldl (fun acc r => if r.isFinal then acc else if ios then acc else acc ++ r.text) ""

/-- Accumulation of `maxConfidence` over final results (useSpeechRecognition.ts:136). -/
def maxConfOf (rs : List RecResult) : Rat :=
  rs.foldl (fun m r => if r.isFinal then max m (effConf r.conf) else m) 0

/-- The expression `finalTranscript || interimTranscript`
(useSpeechRecognition.ts:145). -/
def currentTranscriptOf (ios : Bool) (rs : List RecResult) : String :=
  if finalsConcat rs ≠ "" then finalsConcat rs else interimConcat ios rs

/-- Embedding of `recognition.onresult` (useSpeechRecognition.ts:113-166).
`finalTranscriptRef` is reassigned whenever some result is final; the exposed
transcript is set to the trimmed current text only when that trim is
non-empty, and the confidence only when a final result contributed. -/
def recOnresult (ios : Bool) (rs : List RecResult) (s : RecState) : RecState :=
  let finalT := finalsConcat rs
  let finalRefNew := if rs.any (fun r => r.isFinal) then finalT else s.finalRef
  let current := currentTranscriptOf ios rs
  if jsTrim current ≠ "" then
    { s with transcript := jsTrim current,
             confidence := if finalT ≠ "" then maxConfOf rs else s.confidence,
             finalRef := finalRefNew }
  else
    { s with finalRef := finalRefNew }

/-- Embedding of `recognition.onerror` (useSpeechRecognition.ts:168-202):
listening always ends; the transcript is cleared on `not-allowed`,
`audio-capture` and `network`, cleared on `no-speech` only off iOS, and
preserved on `aborted` and on any unrecognised error code. -/
def recOnerror (ios : Bool) (code : String) (s : RecState) : RecState :=
  let s1 := { s with isListening := false }
  if code = "not-allowed" then { s1 with transcript := "" }
  else if code = "no-speech" then (if ios then s1 else { s1 with transcript := "" })
  else if code = "audio-capture" then { s1 with transcript := "" }
  else if code = "network" then { s1 with transcript := "" }
  else if code = "aborted" then s1
  else s1

/-- Embedding of `recognition.onend` (useSpeechRecognition.ts:204-221). -/
def recOnend (s : RecState) : RecState :=
  let s1 := { s with isListening := false }
  if jsTrim s.finalRef ≠ "" then { s1 with transcript := jsTrim s.finalRef } else s1

/-- Embedding of `recognition.onstart` (useSpeechRecognition.ts:86-111). -/
def recOnstart (s : RecState) : RecState :=
  { s with isListening := true, finalRef := "" }

/-- Embedding of `resetTranscript` (useSpeechRecognition.ts:384-389). -/
def recReset (s : RecState) : RecState :=
  { s with transcript := "", confidence := 0, finalRef := "" }

/-- The synchronous prefix of `startListening` (useSpeechRecognition.ts:241-251):
nothing happens when already listening, otherwise the accumulated text is
cleared before the platform facility is started. -/
def recBeginListening (s : RecState) : RecState :=
  if s.isListening then s
  else { s with transcript := "", confidence := 0, finalRef := "" }

/-- The events the hook reacts to. -/
inductive RecEvent
  | result (rs : List RecResult)
  | errorEv (code : String)
  | endEv
  | startEv
  | reset
  | beginListening
deriving DecidableEq

/-- One step of the hook's state machine. -/
def recStep (ios : Bool) (e : RecEvent) (s : RecState) : RecState :=
  match e with
  | .result rs => recOnresult ios rs s
  | .errorEv code => recOnerror ios code s
  | .endEv => recOnend s
  | .startEv => recOnstart s
  | .reset => recReset s
  | .beginListening => recBeginListening s

end SpeechRec

namespace AppMain

/-- One render snapshot of the `App` component of src/src/App.tsx:18-38:
the hook state plus the component state the modelled effects read and write. -/
structure AppSnap where
  hook : SpeechRec.RecState
  isProcessing : Bool
  errorMsg : Option String
  currentTranscript : String
  lastResponse : String
  pendingTranscript : String
deriving DecidableEq

/-- The synchronous prefix of `handleUserMessage` (App.tsx:107-123) as invoked
from a passive effect. Reads — in particular the `isProcessing` guard of
App.tsx:108 — come from the render snapshot `snap` the calling effect closed
over; writes go to the accumulating next state `acc`. When the guard passes,
one generation request is dispatched (the `fetch` inside
`generateGeminiResponse` is reached synchronously), recorded by appending the
user text to the dispatch log. -/
def handleUserMessageCall (snap acc : AppSnap) (text : String) : AppSnap × List String :=
  if jsTrim text = "" ∨ snap.isProcessing = true then (acc, [])
  else ({ acc with isProcessing := true, errorMsg := none, lastResponse := "" }, [text])

/-- The transcript effect (App.tsx:70-89), with React's dependency comparison
against the previous render `prev` and all reads taken from the current
render snapshot `snap`. -/
def effect1 (prev snap acc : AppSnap) : AppSnap × List String :=
  if prev.hook.transcript = snap.hook.transcript ∧ prev.hook.isListening = snap.hook.isListening
      ∧ prev.hook.confidence = snap.hook.confidence then
    (acc, [])
  else if snap.hook.transcript ≠ "" ∧ jsTrim snap.hook.transcript ≠ "" then
    if snap.hook.isListening = false then
      let r := handleUserMessageCall snap acc snap.hook.transcript
      ({ r.1 with currentTranscript := snap.hook.transcript,
                  hook := { r.1.hook with transcript := "", confidence := 0, finalRef := "" } },
       r.2)
    else
      ({ acc with pendingTranscript := snap.hook.transcript }, [])
  else
    (acc, [])

/-- The pending-transcript effect (App.tsx:92-105), modelled like `effect1`. -/
def effect2 (prev snap acc : AppSnap) : AppSnap × List String :=
  if prev.hook.isListening = snap.hook.isListening ∧ prev.pendingTranscript = snap.pendingTranscript
      ∧ prev.hook.confidence = snap.hook.confidence then
    (acc, [])
  else if snap.hook.isListening = false ∧ snap.pendingTranscript ≠ ""
      ∧ jsTrim snap.pendingTranscript ≠ "" then
    let r := handleUserMessageCall snap acc snap.pendingTranscript
    ({ r.1 with currentTranscript := snap.pendingTranscript,
                pendingTranscript := "",
                hook := { r.1.hook with transcript := "", confidence := 0, finalRef := "" } },
     r.2)
  else
    (acc, [])

/-- One commit: both effects run in declaration order against the same render
snapshot `snap` (React's stale-closure semantics), their state updates
accumulating into the next committed state. Returns the next state and the
concatenated dispatch log. -/
def commitEffects (prev snap : AppSnap) : AppSnap × List String :=
  let r1 := effect1 prev snap snap
  let r2 := effect2 prev snap r1.1
  (r2.1, r1.2 ++ r2.2)

/-- Runs up to `n` successive render/commit cycles: each cycle compares the new
render against the previous one and applies the effects' updates. Once a cycle
changes nothing, further cycles are identities. -/
def commitRounds : Nat → AppSnap → AppSnap → AppSnap × List String
  | 0, _, cur => (cur, [])
  | n + 1, prev, cur =>
    let r := commitEffects prev cur
    let rest := commitRounds n cur r.1
    (rest.1, r.2 ++ rest.2)

/-- Embedding of `handleVoiceStart` (App.tsx:161-173) followed by the
synchronous prefix of the hook's `startListening`. -/
def handleVoiceStartStep (s : AppSnap) : AppSnap :=
  let s1 := { s with errorMsg := none, currentTranscript := "",
                     lastResponse := "", pendingTranscript := "" }
  if s1.hook.isListening then s1
  else { s1 with hook := { s1.hook with transcript := "", confidence := 0, finalRef := "" } }

/-- The hook's `onstart` callback firing. -/
def recStartedStep (s : AppSnap) : AppSnap :=
  { s with hook := SpeechRec.recOnstart s.hook }

/-- The hook's `onresult` callback firing with a single interim (non-final)
desktop result. -/
def interimResultStep (s : AppSnap) (raw : String) : AppSnap :=
  { s with hook := SpeechRec.recOnresult false [⟨raw, false, none⟩] s.hook }

/-- The hook's `onend` callback firing. -/
def recEndedStep (s : AppSnap) : AppSnap :=
  { s with hook := SpeechRec.recOnend s.hook }

/-- The initial mount state of the component. -/
def appInit : AppSnap :=
  ⟨⟨"", false, 0, ""⟩, false, none, "", "", ""⟩

/-- A single desktop utterance: the user taps to start listening, recognition
starts, one interim result delivers the text, and the user stops so
recognition ends with no final result (the hook then keeps the interim
transcript and drops the listening flag). After every event the render/commit
cycles run to quiescence (three rounds suffice here). The second component is
the log of generation dispatches. -/
def c1Run : AppSnap × List String :=
  let s1 := handleVoiceStartStep appInit
  let r1 := commitRounds 3 appInit s1
  let s2 := recStartedStep r1.1
  let r2 := commitRounds 3 r1.1 s2
  let s3 := interimResultStep r2.1 "hello"
  let r3 := commitRounds 3 r2.1 s3
  let s4 := recEndedStep r3.1
  let r4 := commitRounds 3 r3.1 s4
  (r4.1, r1.2 ++ r2.2 ++ r3.2 ++ r4.2)

end AppMain

namespace AppHistory

/-- The `Message` record of src/unnamed/part_001:14-21. -/
structure Message where
  id : String
  text : String
  isUser : Bool
  timestamp : Nat
  confidence : Option Rat
deriving DecidableEq

/-- The `ChatSession` record of part_001:23-28. -/
structure ChatSession where
  id : String
  title : String
  messages : List Message
  timestamp : Nat
deriving DecidableEq

/-- The title expression of part_001:97,
`messages[0]?.text.slice(0, 50) + \x27...\x27 || \x27New Conversation\x27`:
with a first message the first 50 characters plus an ellipsis; with none the
optional chain yields `undefined`, string concatenation coerces it, and the
(truthy) result "undefined..." is used — the `|| \x27New Conversation\x27` arm
is unreachable. The caller only ever passes a non-empty list. -/
def sessionTitle (messages : List Message) : String :=
  match messages with
  | [] => "undefined" ++ "..."
  | m :: _ => (⟨m.text.data.take 50⟩ : String) ++ "..."

/-- Embedding of the save-session effect (part_001:92-110): when there are
messages and a current session id, the session is rebuilt with a fresh
timestamp; an existing session (looked up by `findIndex`) is replaced in
place, otherwise the new session is prepended. -/
def saveSessionEffect (sessions : List ChatSession) (currentSessionId : Option String)
    (messages : List Message) (now : Nat) : List ChatSession :=
  if messages.length > 0 then
    match currentSessionId with
    | none => sessions
    | some cid =>
      let updatedSession : ChatSession := ⟨cid, sessionTitle messages, messages, now⟩
      match sessions.findIdx? (fun t => t.id == cid) with
      | some i => sessions.set i updatedSession
      | none => updatedSession :: sessions
  else sessions

/-- Component state of the `App` of part_001:30-44, restricted to the fields
the modelled handlers touch, plus the set of in-flight audio playbacks. -/
structure AppState where
  messages : List Message
  isProcessing : Bool
  isTyping : Bool
  errorMsg : Option String
  currentResponse : String
  sessions : List ChatSession
  currentSessionId : Option String
  isPlayingAudio : Option String
  inflight : List String
deriving DecidableEq

/-- The synchronous prefix of `handleUserMessage` (part_001:112-132): a blank
text returns before any state is touched; otherwise a session id is minted if
none exists, the user message is appended and the processing/typing flags are
raised. The `Nat` counts processing rounds begun (each of which performs one
generation and one synthesis request downstream). -/
def handleUserMessage (s : AppState) (userText : String) (confidenceScore : Option Rat)
    (now : Nat) : AppState × Nat :=
  if jsTrim userText = "" then (s, 0)
  else
    let sid := match s.currentSessionId with
      | none => some (toString now)
      | some i => some i
    let userMessage : Message := ⟨toString now, userText, true, now, confidenceScore⟩
    ({ s with currentSessionId := sid,
              messages := s.messages ++ [userMessage],
              isProcessing := true, isTyping := true, errorMsg := none }, 1)

/-- JavaScript truthiness of the `string | null` state `isPlayingAudio`. -/
def jsTruthyStrOpt : Option String → Bool
  | none => false
  | some s => decide (s ≠ "")

/-- Embedding of `handlePlayAudio` (part_001:176-187): the manual-replay path
returns immediately while a playback is marked in progress; otherwise it marks
the message as playing and launches a playback via `playAudioBuffer`. -/
def handlePlayAudio (s : AppState) (messageId : String) : AppState :=
  if jsTruthyStrOpt s.isPlayingAudio = true then s
  else { s with isPlayingAudio := some messageId,
                inflight := ElevenLabs.playAudioBufferInvoke s.inflight messageId }

/-- An app state with a playback marked in progress, used to instantiate the
guard theorems. -/
def demoPlaying : AppState :=
  ⟨[], false, false, none, "", [], none, some "m1", ["m1"]⟩

/-- The initial app state. -/
def appInitB : AppState :=
  ⟨[], false, false, none, "", [], none, none, []⟩

end AppHistory

/-! ## General lemmas about the string model -/

/-- Dropping a prefix of satisfied characters is idempotent-compatible with
taking prefixes: a prefix of a list with no leading match has no leading
match either. -/
theorem dropWhile_eq_self_of_prefix (p : Char → Bool) :
    ∀ {m l : List Char}, l.dropWhile p = l → m <+: l → m.dropWhile p = m := by
  intro m l hm hpre
  cases m with
  | nil => rfl
  | cons a t =>
    obtain ⟨r, hr⟩ := hpre
    subst hr
    rw [List.cons_append] at hm
    by_cases hpa : p a = true
    · rw [List.dropWhile_cons_of_pos hpa] at hm
      have hlen := congrArg List.length hm
      have hle : ((t ++ r).dropWhile p).length ≤ (t ++ r).length := by
        have hsub := List.dropWhile_suffix (l := t ++ r) p
        exact hsub.sublist.length_le
      simp only [List.length_cons] at hlen
      omega
    · exact List.dropWhile_cons_of_neg (by simpa using hpa)

/-- Trimming is idempotent on character lists. -/
theorem trimList_idem (p : Char → Bool) (l : List Char) :
    trimList p (trimList p l) = trimList p l := by
  unfold trimList
  have h1 : (l.dropWhile p).dropWhile p = l.dropWhile p := List.dropWhile_idempotent p _
  have h2 : ((l.dropWhile p).rdropWhile p).dropWhile p = (l.dropWhile p).rdropWhile p :=
    dropWhile_eq_self_of_prefix p h1 (List.rdropWhile_prefix p _)
  rw [h2, List.rdropWhile_idempotent]

/-- The JS trim model is idempotent. -/
theorem jsTrim_idem (s : String) : jsTrim (jsTrim s) = jsTrim s := by
  unfold jsTrim
  exact congrArg String.mk (trimList_idem _ _)

/-- Appending characters on the right preserves being a prefix match. -/
theorem startsWithChars_append_self (n rest : List Char) :
    startsWithChars (n ++ rest) n = true := by
  induction n with
  | nil => cases rest <;> rfl
  | cons c cs ih => simp [startsWithChars, ih]

/-- A needle occurs in any list that starts with it. -/
theorem hasSubChars_self_append (n rest : List Char) :
    hasSubChars (n ++ rest) n = true := by
  cases n with
  | nil => cases rest <;> simp [hasSubChars, startsWithChars]
  | cons c cs =>
    simp only [hasSubChars, Bool.or_eq_true]
    exact Or.inl (startsWithChars_append_self (c :: cs) rest)

/-- Every list contains itself. -/
theorem hasSubChars_self (n : List Char) : hasSubChars n n = true := by
  have h := hasSubChars_self_append n []
  simpa using h

/-- Prepending characters preserves occurrence of a needle. -/
theorem hasSubChars_append_left (m : List Char) {l n : List Char}
    (h : hasSubChars l n = true) : hasSubChars (m ++ l) n = true := by
  induction m with
  | nil => simpa
  | cons c ms ih => simp [hasSubChars, ih]

/-- String append acts as list append on the underlying characters. -/
theorem strData_append (s t : String) : (s ++ t).data = s.data ++ t.data := rfl

/-- The synthesis error message mentions the HTTP status code. -/
theorem elevenMsg_contains_status (st : Nat) (sx b : String) :
    strContains (ElevenLabs.elevenLabsErrorMsg st sx b) (toString st) = true := by
  unfold ElevenLabs.elevenLabsErrorMsg strContains
  simp only [strData_append, List.append_assoc]
  exact hasSubChars_append_left _ (hasSubChars_self_append _ _)

/-- The synthesis error message mentions the HTTP status text. -/
theorem elevenMsg_contains_statusText (st : Nat) (sx b : String) :
    strContains (ElevenLabs.elevenLabsErrorMsg st sx b) sx = true := by
  unfold ElevenLabs.elevenLabsErrorMsg strContains
  simp only [strData_append, List.append_assoc]
  exact hasSubChars_append_left _ (hasSubChars_append_left _
    (hasSubChars_append_left _ (hasSubChars_self_append _ _)))

/-- The synthesis error message mentions the response body text. -/
theorem elevenMsg_contains_body (st : Nat) (sx b : String) :
    strContains (ElevenLabs.elevenLabsErrorMsg st sx b) b = true := by
  unfold ElevenLabs.elevenLabsErrorMsg strContains
  simp only [strData_append, List.append_assoc]
  exact hasSubChars_append_left _ (hasSubChars_append_left _
    (hasSubChars_append_left _ (hasSubChars_append_left _
      (hasSubChars_append_left _ (hasSubChars_self _)))))

/-! ## Claim theorems -/

/-- C1: the claim states that exactly one generation and one synthesis request
are dispatched per non-empty utterance, the `isProcessing` guard rejecting
re-entry. The code violates this: in the modelled desktop utterance — one
interim result "hello" while listening, then recognition ending — the
transcript effect and the pending-transcript effect both run in the same
commit, both read the same render snapshot in which `isProcessing` is still
false, and both dispatch. The trace's dispatch log contains "hello" twice,
so two generation (and hence two synthesis, since `generateGeminiResponse`
is total) requests are issued for the single utterance. -/
theorem c1_duplicate_dispatch : AppMain.c1Run.2 = ["hello", "hello"] := by
  rfl

/-- C3: whenever the remote generation call fails, `generateGeminiResponse`
returns (it never throws) the fallback selected by keyword matching on the
lowercased user text, checking verse/scripture, then pray/prayer, then
help/guidance, in that order, and otherwise the generic fallback. -/
theorem c3_fallback_selection (msg : String) (o : GeminiService.GeminiOutcome)
    (hfail : GeminiService.geminiCallFails o = true) :
    ((strContains (jsToLower msg) "verse" || strContains (jsToLower msg) "scripture") = true →
        GeminiService.generateGeminiResponse msg o = GeminiService.verseFallback)
  ∧ ((strContains (jsToLower msg) "verse" || strContains (jsToLower msg) "scripture") = false →
     (strContains (jsToLower msg) "pray" || strContains (jsToLower msg) "prayer") = true →
        GeminiService.generateGeminiResponse msg o = GeminiService.prayerFallback)
  ∧ ((strContains (jsToLower msg) "verse" || strContains (jsToLower msg) "scripture") = false →
     (strContains (jsToLower msg) "pray" || strContains (jsToLower msg) "prayer") = false →
     (strContains (jsToLower msg) "help" || strContains (jsToLower msg) "guidance") = true →
        GeminiService.generateGeminiResponse msg o = GeminiService.guidanceFallback)
  ∧ ((strContains (jsToLower msg) "verse" || strContains (jsToLower msg) "scripture") = false →
     (strContains (jsToLower msg) "pray" || strContains (jsToLower msg) "prayer") = false →
     (strContains (jsToLower msg) "help" || strContains (jsToLower msg) "guidance") = false →
        GeminiService.generateGeminiResponse msg o = GeminiService.genericFallback) := by
  have hr : GeminiService.generateGeminiResponse msg o = GeminiService.geminiFallback msg := by
    cases o with
    | fetchFailure m => rfl
    | httpFailure a b c => rfl
    | ok d =>
      simp only [GeminiService.geminiCallFails, Option.isNone_iff_eq_none] at hfail
      simp [GeminiService.generateGeminiResponse, hfail]
  rw [hr]
  unfold GeminiService.geminiFallback
  refine ⟨fun h1 => by simp [h1], fun h1 h2 => by simp [h1, h2],
    fun h1 h2 h3 => by simp [h1, h2, h3], fun h1 h2 h3 => by simp [h1, h2, h3]⟩

/-- C3 witness: a non-OK generation response with a verse request yields the
verse fallback. -/
theorem c3_fallback_selection_witness :
    GeminiService.geminiCallFails (.httpFailure 500 "Internal Server Error" "boom") = true
  ∧ GeminiService.generateGeminiResponse "Share a Verse"
      (.httpFailure 500 "Internal Server Error" "boom") = GeminiService.verseFallback := by
  exact ⟨rfl, (c3_fallback_selection "Share a Verse"
    (.httpFailure 500 "Internal Server Error" "boom") rfl).1 (by decide)⟩

/-- C4: `synthesizeSpeech` returns the response body bytes on an OK response
and throws an error mentioning the status code, status text and error body on
a non-OK response; `testApiConnection` returns a boolean and returns false
when the request itself fails. -/
theorem c4_synthesis_contract (o : ElevenLabs.FetchOutcome) :
    (∀ r : ElevenLabs.HttpResponse, o = .response r → r.ok = true →
        ElevenLabs.synthesizeSpeech o = .ok r.bodyBytes)
  ∧ (∀ r : ElevenLabs.HttpResponse, o = .response r → r.ok = false →
        ElevenLabs.synthesizeSpeech o
          = .error (ElevenLabs.elevenLabsErrorMsg r.status r.statusText r.bodyText)
      ∧ strContains (ElevenLabs.elevenLabsErrorMsg r.status r.statusText r.bodyText)
          (toString r.status) = true
      ∧ strContains (ElevenLabs.elevenLabsErrorMsg r.status r.statusText r.bodyText)
          r.statusText = true
      ∧ strContains (ElevenLabs.elevenLabsErrorMsg r.status r.statusText r.bodyText)
          r.bodyText = true)
  ∧ (∀ e : String, o = .networkFailure e → ElevenLabs.testApiConnection o = false) := by
  refine ⟨?_, ?_, ?_⟩
  · intro r ho hok
    subst ho
    simp [ElevenLabs.synthesizeSpeech, hok]
  · intro r ho hok
    subst ho
    exact ⟨by simp [ElevenLabs.synthesizeSpeech, hok], elevenMsg_contains_status _ _ _,
      elevenMsg_contains_statusText _ _ _, elevenMsg_contains_body _ _ _⟩
  · intro e ho
    subst ho
    rfl

/-- C4 witness: a successful fetch returns its bytes, and a network failure
makes the connection test return false. -/
theorem c4_synthesis_contract_witness :
    ElevenLabs.synthesizeSpeech (.response ⟨true, 200, "OK", "", [7, 8, 9]⟩) = .ok [7, 8, 9]
  ∧ ElevenLabs.testApiConnection (.networkFailure "offline") = false := by
  exact ⟨(c4_synthesis_contract (.response ⟨true, 200, "OK", "", [7, 8, 9]⟩)).1
      ⟨true, 200, "OK", "", [7, 8, 9]⟩ rfl rfl,
    (c4_synthesis_contract (.networkFailure "offline")).2.2 "offline" rfl⟩

/-- C2 counterexample: with sessions B (timestamp 2) then A (timestamp 1)
persisted, updating the resumed session A at time 3 leaves the list as
[B at 2, A at 3] — the most recently updated session is second, not first,
so the claimed most-recently-updated-first ordering fails. -/
theorem c2_session_order_counterexample :
    (AppHistory.saveSessionEffect
        [⟨"B", "t", [⟨"1", "x", true, 1, none⟩], 2⟩, ⟨"A", "t", [⟨"0", "y", true, 1, none⟩], 1⟩]
        (some "A") [⟨"0", "y", true, 1, none⟩, ⟨"2", "z", false, 3, none⟩] 3).map
        (fun t => (t.id, t.timestamp))
      = [("B", 2), ("A", 3)] := by
  rfl

/-- C2 (amended): the save-session effect prepends a brand-new session to the
head of the list, and replaces an existing session in place at its current
index; consequently the most recently updated session is first again after an
update exactly when the updated session already sits at the head — the case
of N sequential conversations — while updating a resumed older session keeps
it at its old position. -/
theorem c2_session_order (sessions : List AppHistory.ChatSession) (cid : String)
    (msgs : List AppHistory.Message) (now : Nat) (hmsgs : msgs ≠ []) :
    (sessions.findIdx? (fun t => t.id == cid) = none →
       AppHistory.saveSessionEffect sessions (some cid) msgs now
         = ⟨cid, AppHistory.sessionTitle msgs, msgs, now⟩ :: sessions)
  ∧ (∀ i, sessions.findIdx? (fun t => t.id == cid) = some i →
       AppHistory.saveSessionEffect sessions (some cid) msgs now
         = sessions.set i ⟨cid, AppHistory.sessionTitle msgs, msgs, now⟩)
  ∧ (sessions.findIdx? (fun t => t.id == cid) = some 0 →
       (∀ t ∈ sessions, t.timestamp ≤ now) →
       ∃ tl, AppHistory.saveSessionEffect sessions (some cid) msgs now
               = ⟨cid, AppHistory.sessionTitle msgs, msgs, now⟩ :: tl
           ∧ ∀ t ∈ tl, t.timestamp ≤ now) := by
  have hlen : 0 < msgs.length := List.length_pos.mpr hmsgs
  refine ⟨?_, ?_, ?_⟩
  · intro h
    simp [AppHistory.saveSessionEffect, hlen, h]
  · intro i h
    simp [AppHistory.saveSessionEffect, hlen, h]
  · intro h hall
    cases sessions with
    | nil => simp [List.findIdx?_nil] at h
    | cons a tl =>
      refine ⟨tl, ?_, fun t ht => hall t (List.mem_cons_of_mem a ht)⟩
      simp [AppHistory.saveSessionEffect, hlen, h]

/-- C2 witness: the first message of a fresh conversation creates a session at
the head of the (empty) list. -/
theorem c2_session_order_witness :
    AppHistory.saveSessionEffect [] (some "A") [⟨"1", "hi", true, 1, none⟩] 5
      = [⟨"A", AppHistory.sessionTitle [⟨"1", "hi", true, 1, none⟩], [⟨"1", "hi", true, 1, none⟩], 5⟩] := by
  exact (c2_session_order [] "A" [⟨"1", "hi", true, 1, none⟩] 5 (by simp)).1 rfl

/-- C5 counterexample: with the persisted configuration `{"apiKey": ""}` the
`apiKey` field is present and set (to the empty string), yet `getApiKey`
returns the built-in default rather than the stored field value, because the
reader uses JavaScript `||` and the empty string is falsy. -/
theorem c5_config_counterexample :
    ElevenLabs.lookupField (.jobj [("apiKey", .jstr "")]) "apiKey" = some (.jstr "")
  ∧ ElevenLabs.getApiKey (.parsed (.jobj [("apiKey", .jstr "")]))
      = .jstr ElevenLabs.ELEVENLABS_API_KEY
  ∧ ElevenLabs.ELEVENLABS_API_KEY ≠ "" := by
  exact ⟨rfl, rfl, by decide⟩

/-- C5 (amended): each configuration reader returns the persisted field when
the key parses and the field is present with a truthy value, and returns the
built-in default in every other case — key absent, malformed JSON, field
missing, or field present but falsy (for example the empty string); the
readers are total, so they never throw. -/
theorem c5_config_readers :
    (∀ v fv, ElevenLabs.lookupField v "apiKey" = some fv →
        ElevenLabs.getApiKey (.parsed v)
          = (if ElevenLabs.jsTruthy fv then fv else .jstr ElevenLabs.ELEVENLABS_API_KEY))
  ∧ (∀ v, ElevenLabs.lookupField v "apiKey" = none →
        ElevenLabs.getApiKey (.parsed v) = .jstr ElevenLabs.ELEVENLABS_API_KEY)
  ∧ ElevenLabs.getApiKey .absent = .jstr ElevenLabs.ELEVENLABS_API_KEY
  ∧ ElevenLabs.getApiKey .malformed = .jstr ElevenLabs.ELEVENLABS_API_KEY
  ∧ (∀ v fv, ElevenLabs.lookupField v "voiceId" = some fv →
        ElevenLabs.getVoiceId (.parsed v)
          = (if ElevenLabs.jsTruthy fv then fv else .jstr ElevenLabs.DEFAULT_VOICE_ID))
  ∧ (∀ v, ElevenLabs.lookupField v "voiceId" = none →
        ElevenLabs.getVoiceId (.parsed v) = .jstr ElevenLabs.DEFAULT_VOICE_ID)
  ∧ ElevenLabs.getVoiceId .absent = .jstr ElevenLabs.DEFAULT_VOICE_ID
  ∧ ElevenLabs.getVoiceId .malformed = .jstr ElevenLabs.DEFAULT_VOICE_ID
  ∧ (∀ v fv, ElevenLabs.lookupField v "voiceSettings" = some fv →
        ElevenLabs.getVoiceSettings (.parsed v)
          = (if ElevenLabs.jsTruthy fv then fv else ElevenLabs.defaultVoiceSettingsJson))
  ∧ (∀ v, ElevenLabs.lookupField v "voiceSettings" = none →
        ElevenLabs.getVoiceSettings (.parsed v) = ElevenLabs.defaultVoiceSettingsJson)
  ∧ ElevenLabs.getVoiceSettings .absent = ElevenLabs.defaultVoiceSettingsJson
  ∧ ElevenLabs.getVoiceSettings .malformed = ElevenLabs.defaultVoiceSettingsJson := by
  refine ⟨?_, ?_, rfl, rfl, ?_, ?_, rfl, rfl, ?_, ?_, rfl, rfl⟩ <;>
    intro v
  · intro fv h
    simp [ElevenLabs.getApiKey, h]
  · intro h
    simp [ElevenLabs.getApiKey, h]
  · intro fv h
    simp [ElevenLabs.getVoiceId, h]
  · intro h
    simp [ElevenLabs.getVoiceId, h]
  · intro fv h
    simp [ElevenLabs.getVoiceSettings, h]
  · intro h
    simp [ElevenLabs.getVoiceSettings, h]

/-- C5 witness: a stored configuration with a non-empty api key is returned
as-is by the reader. -/
theorem c5_config_readers_witness :
    ElevenLabs.lookupField (.jobj [("apiKey", .jstr "my-key")]) "apiKey" = some (.jstr "my-key")
  ∧ ElevenLabs.getApiKey (.parsed (.jobj [("apiKey", .jstr "my-key")])) = .jstr "my-key" := by
  refine ⟨rfl, ?_⟩
  have h := c5_config_readers.1 (.jobj [("apiKey", .jstr "my-key")]) (.jstr "my-key") rfl
  rw [if_pos (show ElevenLabs.jsTruthy (.jstr "my-key") = true from rfl)] at h
  exact h

/-- C6: `playAudioBuffer` resolves exactly when playback ends normally, and
rejects with the category-identifying reason on each failure: the
user-interaction message on `NotAllowedError`, the format message on
`NotSupportedError`, the playback-failed message on an element error, and the
timeout message when playback never starts before the fixed 30-second
timeout. -/
theorem c6_playback_settlement (ev : ElevenLabs.PlayEvent) :
    (ElevenLabs.playAudioBuffer ev = .resolved → ev = .endedNormally)
  ∧ ElevenLabs.playAudioBuffer .endedNormally = .resolved
  ∧ ElevenLabs.playAudioBuffer .elementError = .rejectedMsg "Audio playback failed"
  ∧ ElevenLabs.playAudioBuffer (.playRejected "NotAllowedError")
      = .rejectedMsg "Audio playback requires user interaction on this device"
  ∧ strContains "Audio playback requires user interaction on this device"
      "requires user interaction" = true
  ∧ ElevenLabs.playAudioBuffer (.playRejected "NotSupportedError")
      = .rejectedMsg "Audio format not supported on this device"
  ∧ strContains "Audio format not supported on this device" "format not supported" = true
  ∧ ElevenLabs.playAudioBuffer .neverStarts = .rejectedMsg "Audio playback timeout"
  ∧ ElevenLabs.playbackTimeoutMs = 30000 := by
  refine ⟨?_, rfl, rfl, rfl, by decide, rfl, by decide, rfl, rfl⟩
  intro h
  cases ev with
  | endedNormally => rfl
  | elementError => simp [ElevenLabs.playAudioBuffer] at h
  | playRejected name =>
    simp only [ElevenLabs.playAudioBuffer] at h
    split at h
    · simp at h
    · split at h <;> simp at h
  | neverStarts => simp [ElevenLabs.playAudioBuffer] at h

/-- C6 witness: normal end of playback resolves the promise. -/
theorem c6_playback_settlement_witness :
    ElevenLabs.playAudioBuffer .endedNormally = .resolved
  ∧ ElevenLabs.PlayEvent.endedNormally = ElevenLabs.PlayEvent.endedNormally := by
  exact ⟨rfl, (c6_playback_settlement ElevenLabs.PlayEvent.endedNormally).1 rfl⟩

/-- C7 counterexample: launching a playback while another is in flight leaves
both in flight — `playAudioBuffer` does not cancel or stop the existing one,
contrary to the claim that starting a new playback first cancels any in-flight
playback. -/
theorem c7_playback_counterexample :
    ElevenLabs.playAudioBufferInvoke ["greeting"] "reply" = ["reply", "greeting"]
  ∧ "greeting" ∈ ElevenLabs.playAudioBufferInvoke ["greeting"] "reply" := by
  exact ⟨rfl, by decide⟩

/-- C7 (amended): the manual-replay path refuses to start a second playback
while one is marked in progress, and when it does start one it merely adds a
new in-flight playback without cancelling or stopping any existing one —
mutual exclusion rests solely on the call-site guard flags. -/
theorem c7_playback_guard (s : AppHistory.AppState) (mid : String) :
    (AppHistory.jsTruthyStrOpt s.isPlayingAudio = true →
        AppHistory.handlePlayAudio s mid = s)
  ∧ (AppHistory.jsTruthyStrOpt s.isPlayingAudio = false →
        (AppHistory.handlePlayAudio s mid).isPlayingAudio = some mid
      ∧ (AppHistory.handlePlayAudio s mid).inflight = mid :: s.inflight) := by
  constructor
  · intro h
    simp [AppHistory.handlePlayAudio, h]
  · intro h
    simp [AppHistory.handlePlayAudio, h, ElevenLabs.playAudioBufferInvoke]

/-- C7 witness: with a playback marked in progress, the manual replay of a
second message is refused. -/
theorem c7_playback_guard_witness :
    AppHistory.jsTruthyStrOpt AppHistory.demoPlaying.isPlayingAudio = true
  ∧ AppHistory.handlePlayAudio AppHistory.demoPlaying "m2" = AppHistory.demoPlaying := by
  exact ⟨rfl, (c7_playback_guard AppHistory.demoPlaying "m2").1 rfl⟩

/-- C8 counterexample: on a non-iOS device a `no-speech` recognition error
clears the transcript, contradicting the claim that `no-speech` leaves the
transcript untouched. -/
theorem c8_error_counterexample :
    (SpeechRec.recStep false (.errorEv "no-speech") ⟨"hello", true, 0, ""⟩).transcript = ""
  ∧ ("hello" : String) ≠ "" := by
  exact ⟨rfl, by decide⟩

/-- C8 (amended): the recognition error handler always ends listening; it
clears the transcript on `not-allowed`, `audio-capture` and `network`; on
`no-speech` it preserves the transcript on iOS but clears it on every other
platform; it preserves the transcript on `aborted` and on any unrecognised
code such as `service-not-allowed`. -/
theorem c8_error_handler (ios : Bool) (s : SpeechRec.RecState) :
    ((SpeechRec.recStep ios (.errorEv "not-allowed") s).transcript = ""
      ∧ (SpeechRec.recStep ios (.errorEv "not-allowed") s).isListening = false)
  ∧ ((SpeechRec.recStep ios (.errorEv "no-speech") s).transcript
        = (if ios then s.transcript else "")
      ∧ (SpeechRec.recStep ios (.errorEv "no-speech") s).isListening = false)
  ∧ (SpeechRec.recStep ios (.errorEv "audio-capture") s).transcript = ""
  ∧ (SpeechRec.recStep ios (.errorEv "network") s).transcript = ""
  ∧ ((SpeechRec.recStep ios (.errorEv "aborted") s).transcript = s.transcript
      ∧ (SpeechRec.recStep ios (.errorEv "aborted") s).isListening = false)
  ∧ (SpeechRec.recStep ios (.errorEv "service-not-allowed") s).transcript = s.transcript := by
  cases ios <;>
    exact ⟨⟨rfl, rfl⟩, ⟨rfl, rfl⟩, rfl, rfl, ⟨rfl, rfl⟩, rfl⟩

/-- C9: every step of the recognition hook keeps the exposed transcript equal
to its own trim — that is, empty or a trimmed non-empty string; a result event
whose accumulated current text trims to empty leaves the transcript untouched,
as does the end handler when the final-transcript ref trims to empty; and
`resetTranscript` yields the empty transcript with confidence 0. -/
theorem c9_transcript_invariant (ios : Bool) (e : SpeechRec.RecEvent) (s : SpeechRec.RecState)
    (hinv : jsTrim s.transcript = s.transcript) :
    jsTrim (SpeechRec.recStep ios e s).transcript = (SpeechRec.recStep ios e s).transcript
  ∧ (∀ rs, jsTrim (SpeechRec.currentTranscriptOf ios rs) = "" →
        (SpeechRec.recStep ios (.result rs) s).transcript = s.transcript)
  ∧ (jsTrim s.finalRef = "" → (SpeechRec.recStep ios .endEv s).transcript = s.transcript)
  ∧ (SpeechRec.recStep ios .reset s).transcript = ""
  ∧ (SpeechRec.recStep ios .reset s).confidence = 0 := by
  refine ⟨?_, ?_, ?_, rfl, rfl⟩
  · cases e with
    | result rs =>
      simp only [SpeechRec.recStep, SpeechRec.recOnresult]
      split
      · simpa using jsTrim_idem (SpeechRec.currentTranscriptOf ios rs)
      · simpa using hinv
    | errorEv code =>
      simp only [SpeechRec.recStep, SpeechRec.recOnerror]
      split
      · exact rfl
      · split
        · split
          · simpa using hinv
          · exact rfl
        · split
          · exact rfl
          · split
            · exact rfl
            · split
              · simpa using hinv
              · simpa using hinv
    | endEv =>
      simp only [SpeechRec.recStep, SpeechRec.recOnend]
      split
      · simpa using jsTrim_idem s.finalRef
      · simpa using hinv
    | startEv => simpa using hinv
    | reset => exact rfl
    | beginListening =>
      simp only [SpeechRec.recStep, SpeechRec.recBeginListening]
      split
      · exact hinv
      · exact rfl
  · intro rs h
    simp [SpeechRec.recStep, SpeechRec.recOnresult, h]
  · intro h
    simp [SpeechRec.recStep, SpeechRec.recOnend, h]

/-- C9 witness: resetting from a trimmed transcript yields the empty
transcript and zero confidence. -/
theorem c9_transcript_invariant_witness :
    jsTrim "hi" = "hi"
  ∧ (SpeechRec.recStep false .reset ⟨"hi", false, 0, ""⟩).transcript = ""
  ∧ (SpeechRec.recStep false .reset ⟨"hi", false, 0, ""⟩).confidence = 0 := by
  have h := c9_transcript_invariant false .reset ⟨"hi", false, 0, ""⟩ (by decide)
  exact ⟨by decide, h.2.2.2.1, h.2.2.2.2⟩

/-- C10: a user text that trims to the empty string makes `handleUserMessage`
a no-op in both App variants — no state update, no appended message, no
generation or synthesis dispatch. -/
theorem c10_blank_message_noop (text : String) (hblank : jsTrim text = "") :
    (∀ snap acc : AppMain.AppSnap, AppMain.handleUserMessageCall snap acc text = (acc, []))
  ∧ (∀ (s : AppHistory.AppState) (conf : Option Rat) (now : Nat),
        AppHistory.handleUserMessage s text conf now = (s, 0)) := by
  constructor
  · intro snap acc
    simp [AppMain.handleUserMessageCall, hblank]
  · intro s conf now
    simp [AppHistory.handleUserMessage, hblank]

/-- C10 witness: a whitespace-only utterance changes nothing in either App. -/
theorem c10_blank_message_noop_witness :
    jsTrim "   " = ""
  ∧ AppMain.handleUserMessageCall AppMain.appInit AppMain.appInit "   "
      = (AppMain.appInit, [])
  ∧ AppHistory.handleUserMessage AppHistory.appInitB "   " none 0
      = (AppHistory.appInitB, 0) := by
  exact ⟨by decide, (c10_blank_message_noop "   " (by decide)).1 AppMain.appInit AppMain.appInit,
    (c10_blank_message_noop "   " (by decide)).2 AppHistory.appInitB none 0⟩
